import Mathlib

/-!
Verification of the user-api-restful service core: the transactional
orchestration pattern (application layer) and the persistence error
translation layer (relational adapter), shallowly embedded from the Go
source.

Go errors are modelled as an inductive type `GoError`.  The domain
sentinel errors (`errors.New` package-level variables in
internal/domain/errors.go) are dedicated constructors, since `errors.Is`
compares them by identity and each has exactly one live value.  The
struct-shaped domain errors (`ErrValueNotNullable`, `ErrInternalServer`,
`ErrTransactionFailed`) are constructors carrying their `Value` field;
Go compares such comparable structs field-wise under `errors.Is`.
Driver errors (`pq.Error`, `pgconn.PgError`) and GORM sentinels are
constructors as well.  A fresh error built by `errors.New`/`fmt.Errorf`
at runtime is `errorString`; two such values are distinct allocations in
Go and therefore never identity-equal, which `sameErrorValue` reflects
by returning `false` on them.  `fmt.Errorf` with the `%w` verb produces
`wrapped`, the only constructor `errors.Unwrap` descends through.
-/

set_option autoImplicit false

inductive GoError where
  | errUserNotFound
  | errUsernameInUse
  | errEmailInUse
  | errIdInUse
  | errValueNotNullable (value : String)
  | errInternalServer (value : String)
  | errTransactionFailed (value : String)
  | gormErrRecordNotFound
  | gormErrInvalidData
  | pqError (code constraint table msg : String)
  | pgconnError (code constraintName msg : String)
  | errorString (msg : String)
  | wrapped (wrapMsg : String) (cause : GoError)
deriving DecidableEq, Repr

namespace GoError

/-- The `Error()` method of each modelled error value, from
internal/domain/errors.go for the domain errors; driver errors carry
their message abstractly. -/
def message : GoError → String
  | errUserNotFound => "user not found"
  | errUsernameInUse => "username already in use"
  | errEmailInUse => "email already in use"
  | errIdInUse => "id already in use"
  | errValueNotNullable v => v ++ " is not nullable"
  | errInternalServer v => "internal server error: " ++ v
  | errTransactionFailed v => "error transaction failed: " ++ v
  | gormErrRecordNotFound => "record not found"
  | gormErrInvalidData => "unsupported data"
  | pqError _ _ _ m => m
  | pgconnError _ _ m => m
  | errorString m => m
  | wrapped w cause => w ++ cause.message

/-- Go identity/equality comparison between two error values, as used by
`errors.Is` at each unwrap step.  Sentinels compare by identity: a
constructor stands for the single live allocation, so equal
constructors mean the same value.  Comparable struct errors compare
field-wise.  `errorString`, `wrapped` and the pointer-shaped driver
errors are fresh allocations, never identity-equal to a target. -/
def sameErrorValue : GoError → GoError → Bool
  | errUserNotFound, errUserNotFound => true
  | errUsernameInUse, errUsernameInUse => true
  | errEmailInUse, errEmailInUse => true
  | errIdInUse, errIdInUse => true
  | gormErrRecordNotFound, gormErrRecordNotFound => true
  | gormErrInvalidData, gormErrInvalidData => true
  | errValueNotNullable v, errValueNotNullable w => v == w
  | errInternalServer v, errInternalServer w => v == w
  | errTransactionFailed v, errTransactionFailed w => v == w
  | _, _ => false

/-- The semantics of Go `errors.Is(e, target)`: compare at each level of
the unwrap chain.  Only `wrapped` (built by `fmt.Errorf` with `%w`)
unwraps. -/
def errorIs (e target : GoError) : Bool :=
  sameErrorValue e target ||
    match e with
    | wrapped _ cause => errorIs cause target
    | _ => false

/-- The semantics of `errors.As(e, &pqErr)` for target type `*pq.Error`:
walk the unwrap chain and surface code, constraint, table of the first
`pq.Error`. -/
def asPqError : GoError → Option (String × String × String)
  | pqError c k t _ => some (c, k, t)
  | wrapped _ cause => asPqError cause
  | _ => none

/-- The semantics of `errors.As(e, &pgconnErr)` for target type
`*pgconn.PgError`: code and constraint name of the first
`pgconn.PgError` in the unwrap chain. -/
def asPgconnError : GoError → Option (String × String)
  | pgconnError c k _ => some (c, k)
  | wrapped _ cause => asPgconnError cause
  | _ => none

/-- The semantics of `errors.As(e, &errValue)` for target type
`domain.ErrValueNotNullable`: the `Value` field of the first such error
in the unwrap chain. -/
def asNotNullable : GoError → Option String
  | errValueNotNullable v => some v
  | wrapped _ cause => asNotNullable cause
  | _ => none

end GoError

/-- PgErrorData from
internal/persistence/database/postgres_repository.go: the structured
code and constraint extracted from a driver error. -/
structure PgErrorData where
  Code : String
  Constraint : String
deriving DecidableEq, Repr

/-- extractPgError from postgres_repository.go.  Tries the `pq` driver
shape first (substituting the table name when the constraint name is
empty), then the `pgconn` shape; GORM sentinels and everything else
yield `none`. -/
def extractPgError : Option GoError → Option PgErrorData
  | none => none
  | some err =>
    match err.asPqError with
    | some (code, constraint, table) =>
      let constraintName := if constraint == "" then table else constraint
      some ⟨code, constraintName⟩
    | none =>
      match err.asPgconnError with
      | some (code, constraintName) => some ⟨code, constraintName⟩
      | none => none

/-- The driver error classification block that appears verbatim in both
`PostgresRepository.Create` (lines 78-101) and `PostgresRepository.Update`
(lines 158-181) of postgres_repository.go: code 23505 switches on the
three known constraint names with no default (an unknown name falls
through to the final internal-server case), code 23502 derives the
column name or the placeholder, and anything else becomes
`ErrInternalServer` carrying the raw message. -/
def classifyWriteError (result : GoError) : GoError :=
  match extractPgError (some result) with
  | some err =>
    if err.Code == "23505" then
      if err.Constraint == "users_pkey" then .errIdInUse
      else if err.Constraint == "idx_username" then .errUsernameInUse
      else if err.Constraint == "idx_email" then .errEmailInUse
      else .errInternalServer result.message
    else if err.Code == "23502" then
      let column :=
        if err.Constraint == "id" || err.Constraint == "username" ||
            err.Constraint == "email" then err.Constraint
        else "a column"
      .errValueNotNullable column
    else .errInternalServer result.message
  | none => .errInternalServer result.message

namespace PostgresRepository

/-- PostgresRepository.Create: the store round-trip outcome
(`p.db.Create(&userEntity).Error`) is the parameter; on a driver error
the classification block runs, otherwise success. -/
def create (dbResult : Option GoError) : Option GoError :=
  match dbResult with
  | none => none
  | some result => some (classifyWriteError result)

/-- PostgresRepository.Update: the store outcome is the returned driver
error together with the affected row count.  A GORM record-not-found
error maps to `ErrUserNotFound`; other errors run the classification
block; no error with zero affected rows is also `ErrUserNotFound`. -/
def update (dbError : Option GoError) (rowsAffected : Nat) : Option GoError :=
  match dbError with
  | some result =>
    if result.errorIs .gormErrRecordNotFound then some .errUserNotFound
    else some (classifyWriteError result)
  | none =>
    if rowsAffected == 0 then some .errUserNotFound else none

/-- PostgresRepository.Delete: any driver error becomes
`ErrInternalServer`; no error with zero affected rows is
`ErrUserNotFound`. -/
def delete (dbError : Option GoError) (rowsAffected : Nat) : Option GoError :=
  match dbError with
  | some result => some (.errInternalServer result.message)
  | none =>
    if rowsAffected == 0 then some .errUserNotFound else none

/-- PostgresRepository.FindById: a GORM record-not-found error maps to
`ErrUserNotFound`, any other driver error to `ErrInternalServer`. -/
def findByIdError (dbError : GoError) : GoError :=
  if dbError.errorIs .gormErrRecordNotFound then .errUserNotFound
  else .errInternalServer dbError.message

end PostgresRepository

/-- The behaviour of the underlying store during one
`gorm.DB.Transaction` call: either the transaction cannot begin (the
closure never runs), or the closure runs and, when it returns nil, the
commit attempt has the given outcome. -/
inductive TxStore where
  | beginFailed (e : GoError)
  | ran (commitResult : Option GoError)
deriving DecidableEq, Repr

/-- PostgresRepository.Execute (the UserTransactionPort): runs the unit
of work inside a GORM transaction.  `fnResult` is what the unit of work
returns when invoked.  A non-nil `fnResult` is captured as
`capturedDomainError`, forces a rollback and is returned verbatim; a
failure of the store itself (begin or commit) with no captured domain
error becomes `ErrTransactionFailed` carrying the store error message. -/
def txPortExecute (store : TxStore) (fnResult : Option GoError) : Option GoError :=
  match store with
  | .beginFailed e => some (.errTransactionFailed e.message)
  | .ran commitResult =>
    match fnResult with
    | some fnErr => some fnErr
    | none =>
      match commitResult with
      | some ce => some (.errTransactionFailed ce.message)
      | none => none

/-- Whether the unit of work committed: only when the closure ran,
returned nil, and the commit itself succeeded. -/
def txCommitted (store : TxStore) (fnResult : Option GoError) : Bool :=
  match store, fnResult with
  | .ran none, none => true
  | _, _ => false

/-- mapRepositoryError from
internal/application/user_service_impl.go: sentinel kinds are rebuilt
with bare `fmt.Errorf` (fresh `errorString` values), the not-nullable
struct error is rebuilt from its message, and everything else is
wrapped with the internal-service-error text using the `%w` verb. -/
def mapRepositoryError (err : GoError) : GoError :=
  if err.errorIs .errUserNotFound then .errorString "user not found"
  else if err.errorIs .errUsernameInUse then .errorString "username already in use"
  else if err.errorIs .errEmailInUse then .errorString "email already in use"
  else
    match err.asNotNullable with
    | some v => .errorString (v ++ " is not nullable")
    | none => .wrapped "internal service error: " err

/-- The domain User entity from internal/domain/user.go. -/
structure User where
  ID : String
  Name : String
  Username : String
  Email : String
deriving DecidableEq, Repr

/-- UserCreateRequest from internal/domain/user.go: the create-boundary
projection without an identifier. -/
structure UserCreateRequest where
  Name : String
  Username : String
  Email : String
deriving DecidableEq, Repr

/-- UserEntity from internal/persistence/entity/user_entity.go: the
relational row shape (primary key on ID, unique indexes idx_username and
idx_email). -/
structure UserEntity where
  ID : String
  Name : String
  Username : String
  Email : String
deriving DecidableEq, Repr

/-- ToEntity from user_entity.go (the callers in the repository always
pass a non-nil pointer, so the nil branch is unreachable and not
modelled). -/
def ToEntity (user : User) : UserEntity :=
  { ID := user.ID, Name := user.Name, Username := user.Username, Email := user.Email }

/-- FromEntity from user_entity.go. -/
def FromEntity (e : UserEntity) : User :=
  { ID := e.ID, Name := e.Name, Username := e.Username, Email := e.Email }

namespace UserServiceImpl

/-- UserServiceImpl.Create from user_service_impl.go.  The generated
ULID string and the store outcomes are parameters: `genId` is the value
`ulid.MustNew(...).String()` produced inside the unit of work, `store`
is the behaviour of the GORM transaction, and `dbResult` is the driver
outcome of the insert when the unit of work runs.  The unit of work
builds the entity from the request, assigns the generated identifier,
calls the repository Create and propagates its error; `createdUser` is
set only when the repository call succeeds, and the transaction result
is mapped through `mapRepositoryError` on failure. -/
def create (req : UserCreateRequest) (genId : String) (store : TxStore)
    (dbResult : Option GoError) : Except GoError User :=
  let newUser : User :=
    { ID := genId, Name := req.Name, Username := req.Username, Email := req.Email }
  match txPortExecute store (PostgresRepository.create dbResult) with
  | some e => .error (mapRepositoryError e)
  | none => .ok newUser

/-- UserServiceImpl.Update from user_service_impl.go: runs the
repository Update inside the transaction port; on success it returns
the very user value it was given (no re-read), on failure the mapped
error. -/
def update (user : User) (store : TxStore) (dbError : Option GoError)
    (rowsAffected : Nat) : Except GoError User :=
  match txPortExecute store (PostgresRepository.update dbError rowsAffected) with
  | some e => .error (mapRepositoryError e)
  | none => .ok user

end UserServiceImpl

/-!
A state-passing model of the composed system for the create-then-find
round trip.  The repository and orchestrator logic is the code's; the
relational engine itself is an external collaborator, so its behaviour
is modelled from the spec.
-/

/-- Modelled from the spec: the relational engine behind
`p.db.Create`, which is not part of this repository.  Spec section 6
gives its schema: one table keyed by id (primary key `users_pkey`) with
unique indexes `idx_username` and `idx_email`.  An insert that collides
on one of them fails with unique-violation code 23505 and that
constraint name (surfaced here in the `pgconn` driver shape); otherwise
the row is appended.  Go strings are never NULL, so the not-null
constraints cannot fire on an insert from this code path. -/
def dbCreateError (table : List UserEntity) (e : UserEntity) : Option GoError :=
  if table.any (fun x => x.ID == e.ID) then
    some (.pgconnError "23505" "users_pkey" "duplicate key value violates unique constraint")
  else if table.any (fun x => x.Username == e.Username) then
    some (.pgconnError "23505" "idx_username" "duplicate key value violates unique constraint")
  else if table.any (fun x => x.Email == e.Email) then
    some (.pgconnError "23505" "idx_email" "duplicate key value violates unique constraint")
  else none

/-- PostgresRepository.Create over the modelled store state: converts
the domain user with `ToEntity`, performs the insert, and classifies any
driver error exactly as `PostgresRepository.create` does. -/
def repoCreateS (table : List UserEntity) (user : User) :
    List UserEntity × Option GoError :=
  match dbCreateError table (ToEntity user) with
  | some e => (table, PostgresRepository.create (some e))
  | none => (table ++ [ToEntity user], PostgresRepository.create none)

/-- Modelled from the spec: the relational engine behind
`p.db.Where("id = ?", id).First(...)`, which is not part of this
repository.  It yields the row keyed by the identifier or GORM's
record-not-found error. -/
def dbFirst (table : List UserEntity) (id : String) : Except GoError UserEntity :=
  match table.find? (fun e => e.ID == id) with
  | some e => .ok e
  | none => .error .gormErrRecordNotFound

/-- PostgresRepository.FindById over the modelled store state: maps the
record-not-found error to `ErrUserNotFound`, other errors to
`ErrInternalServer`, and converts the found row with `FromEntity`. -/
def repoFindByIdS (table : List UserEntity) (id : String) : Except GoError User :=
  match dbFirst table id with
  | .error e => .error (PostgresRepository.findByIdError e)
  | .ok e => .ok (FromEntity e)

/-- UserServiceImpl.Create over the modelled store state: the unit of
work inserts the new entity; per the transaction contract the store
state is kept on success and rolled back to the original on any error,
and errors are mapped through `mapRepositoryError`. -/
def svcCreateS (table : List UserEntity) (req : UserCreateRequest) (genId : String) :
    List UserEntity × Except GoError User :=
  let newUser : User :=
    { ID := genId, Name := req.Name, Username := req.Username, Email := req.Email }
  match repoCreateS table newUser with
  | (t2, none) => (t2, .ok newUser)
  | (_, some e) => (table, .error (mapRepositoryError e))

/-- UserServiceImpl.FindById over the modelled store state: delegates to
the repository and maps any error. -/
def svcFindByIdS (table : List UserEntity) (id : String) : Except GoError User :=
  match repoFindByIdS table id with
  | .error e => .error (mapRepositoryError e)
  | .ok u => .ok u

/-- C1: the claim states that every domain error kind produced by the
repository adapter still identifies as the same kind (by `errors.Is` /
`errors.As`) after the orchestrator mapping `mapRepositoryError`.  The
code rebuilds the NotFound, UsernameConflict and EmailConflict
sentinels and the NotNullable struct error with bare `fmt.Errorf`
(no `%w` verb), producing fresh error values that no longer match the
domain sentinel or type, so the boundary handler checks in
`UserHandler.FindById`/`Update` can never see those kinds; only
`ErrIdInUse`, which falls through into the wrapping branch, keeps its
identity.  This theorem evaluates the mapping at each failing input. -/
theorem mapRepositoryError_loses_domain_kinds :
    GoError.errorIs (mapRepositoryError .errUserNotFound) .errUserNotFound = false ∧
    GoError.errorIs (mapRepositoryError .errUsernameInUse) .errUsernameInUse = false ∧
    GoError.errorIs (mapRepositoryError .errEmailInUse) .errEmailInUse = false ∧
    GoError.asNotNullable (mapRepositoryError (.errValueNotNullable "username")) = none ∧
    GoError.errorIs (mapRepositoryError .errIdInUse) .errIdInUse = true := by
  decide

/-- C2: the transaction port contract.  If the unit of work returns a
non-nil error, `Execute` returns exactly that error value and the unit
of work does not commit; if the unit of work returns nil and the commit
succeeds, `Execute` returns nil; if the store itself fails (begin or
commit) while the unit of work returned nil, `Execute` returns
`ErrTransactionFailed` carrying the store message, not a domain
error. -/
theorem txPortExecute_contract (fnResult commitResult : Option GoError) :
    (∀ e, fnResult = some e →
      txPortExecute (.ran commitResult) fnResult = some e ∧
      txCommitted (.ran commitResult) fnResult = false) ∧
    txPortExecute (.ran none) none = none ∧
    (∀ ce, txPortExecute (.ran (some ce)) none =
      some (.errTransactionFailed ce.message)) ∧
    (∀ be, txPortExecute (.beginFailed be) none =
      some (.errTransactionFailed be.message)) := by
  refine ⟨?_, rfl, fun ce => rfl, fun be => rfl⟩
  rintro e rfl
  exact ⟨rfl, by cases commitResult <;> rfl⟩

/-- C3 counterexample: a driver error with unique-violation code 23505
and a constraint name outside the three known ones is classified by the
repository Create as `ErrInternalServer`, not as any of the conflict
kinds — the 23505 switch has no default case, so the error falls
through to the internal-server branch. -/
theorem create_unknown_constraint_cx :
    PostgresRepository.create (some (.pgconnError "23505" "users_other_key" "dup")) =
      some (.errInternalServer "dup") ∧
    PostgresRepository.create (some (.pgconnError "23505" "users_other_key" "dup")) ≠
      some .errIdInUse ∧
    PostgresRepository.create (some (.pgconnError "23505" "users_other_key" "dup")) ≠
      some .errUsernameInUse ∧
    PostgresRepository.create (some (.pgconnError "23505" "users_other_key" "dup")) ≠
      some .errEmailInUse := by
  decide

/-- C3 amended: a unique-violation (23505) driver error whose extracted
constraint name is none of users_pkey, idx_username, idx_email is never
reported as success by Create or Update — both classify it as
`ErrInternalServer` carrying the raw driver message, not as a conflict
kind (for Update this holds whenever the driver error is not GORM's
record-not-found sentinel, which a driver error carrying pg data never
is). -/
theorem create_unknown_constraint_internal (result : GoError) (c : String)
    (hx : extractPgError (some result) = some ⟨"23505", c⟩)
    (h1 : c ≠ "users_pkey") (h2 : c ≠ "idx_username") (h3 : c ≠ "idx_email") :
    PostgresRepository.create (some result) =
      some (.errInternalServer result.message) ∧
    (∀ rowsAffected, result.errorIs .gormErrRecordNotFound = false →
      PostgresRepository.update (some result) rowsAffected =
        some (.errInternalServer result.message)) := by
  have hcw : classifyWriteError result = .errInternalServer result.message := by
    simp only [classifyWriteError, hx]
    simp [h1, h2, h3]
  constructor
  · simp only [PostgresRepository.create, hcw]
  · intro rowsAffected hg
    simp only [PostgresRepository.update, hg, Bool.false_eq_true, if_false, hcw]

/-- C3 witness: the amended statement at a concrete driver error of the
pq shape, for both Create and Update. -/
theorem create_unknown_constraint_internal_witness :
    PostgresRepository.create (some (.pqError "23505" "users_email_key" "users" "dup2")) =
      some (.errInternalServer "dup2") ∧
    PostgresRepository.update (some (.pqError "23505" "users_email_key" "users" "dup2")) 1 =
      some (.errInternalServer "dup2") := by
  have h := create_unknown_constraint_internal
    (.pqError "23505" "users_email_key" "users" "dup2")
    "users_email_key" (by decide) (by decide) (by decide) (by decide)
  exact ⟨h.1, h.2 1 (by decide)⟩

/-- C4: an Update or Delete where the store reports no driver error but
zero affected rows returns `ErrUserNotFound`, never nil. -/
theorem update_delete_zero_rows_not_found :
    PostgresRepository.update none 0 = some .errUserNotFound ∧
    PostgresRepository.delete none 0 = some .errUserNotFound :=
  ⟨rfl, rfl⟩

/-- C5: the full classification of a failed repository Create: code
23505 maps by constraint name to the three conflict errors, code 23502
maps to `ErrValueNotNullable` carrying the extracted column when it is
one of id, username, email and the placeholder otherwise, and any
failure with a different code or no extractable pg data maps to
`ErrInternalServer` carrying the raw message. -/
theorem create_error_classification :
    (∀ result, extractPgError (some result) = some ⟨"23505", "users_pkey"⟩ →
      PostgresRepository.create (some result) = some .errIdInUse) ∧
    (∀ result, extractPgError (some result) = some ⟨"23505", "idx_username"⟩ →
      PostgresRepository.create (some result) = some .errUsernameInUse) ∧
    (∀ result, extractPgError (some result) = some ⟨"23505", "idx_email"⟩ →
      PostgresRepository.create (some result) = some .errEmailInUse) ∧
    (∀ result c, extractPgError (some result) = some ⟨"23502", c⟩ →
      (c = "id" ∨ c = "username" ∨ c = "email") →
      PostgresRepository.create (some result) = some (.errValueNotNullable c)) ∧
    (∀ result c, extractPgError (some result) = some ⟨"23502", c⟩ →
      c ≠ "id" → c ≠ "username" → c ≠ "email" →
      PostgresRepository.create (some result) = some (.errValueNotNullable "a column")) ∧
    (∀ result code c, extractPgError (some result) = some ⟨code, c⟩ →
      code ≠ "23505" → code ≠ "23502" →
      PostgresRepository.create (some result) = some (.errInternalServer result.message)) ∧
    (∀ result, extractPgError (some result) = none →
      PostgresRepository.create (some result) = some (.errInternalServer result.message)) := by
  refine ⟨?_, ?_, ?_, ?_, ?_, ?_, ?_⟩
  · intro result hx
    simp [PostgresRepository.create, classifyWriteError, hx]
  · intro result hx
    simp [PostgresRepository.create, classifyWriteError, hx]
  · intro result hx
    simp [PostgresRepository.create, classifyWriteError, hx]
  · intro result c hx hc
    simp only [PostgresRepository.create, classifyWriteError, hx]
    rcases hc with h | h | h <;> subst h <;> rfl
  · intro result c hx h1 h2 h3
    simp only [PostgresRepository.create, classifyWriteError, hx]
    simp [h1, h2, h3]
  · intro result code c hx h1 h2
    simp only [PostgresRepository.create, classifyWriteError, hx]
    simp [h1, h2]
  · intro result hx
    simp [PostgresRepository.create, classifyWriteError, hx]

/-- C6: a successful orchestrator Create returns a user whose name,
username and email equal those of the request and whose identifier is
the one generated by the orchestrator inside the unit of work; on any
failure of the unit of work it returns no user and the error mapped
through `mapRepositoryError`. -/
theorem service_create_shape (req : UserCreateRequest) (genId : String)
    (store : TxStore) (dbResult : Option GoError) :
    (∀ u, UserServiceImpl.create req genId store dbResult = .ok u →
      u.ID = genId ∧ u.Name = req.Name ∧ u.Username = req.Username ∧
        u.Email = req.Email) ∧
    (∀ e, UserServiceImpl.create req genId store dbResult = .error e →
      ∃ re, txPortExecute store (PostgresRepository.create dbResult) = some re ∧
        e = mapRepositoryError re) := by
  unfold UserServiceImpl.create
  cases htx : txPortExecute store (PostgresRepository.create dbResult) with
  | some e0 =>
    constructor
    · intro u hu
      exact absurd hu (by simp)
    · intro e he
      simp only [Except.error.injEq] at he
      exact ⟨e0, rfl, he.symm⟩
  | none =>
    constructor
    · intro u hu
      simp only [Except.ok.injEq] at hu
      subst hu
      exact ⟨rfl, rfl, rfl, rfl⟩
    · intro e he
      exact absurd he (by simp)

/-- C9: the repository Create returns either nil or one of exactly the
conflict errors, a not-nullable error, or an internal-server error; in
particular a GORM record-not-found condition during Create surfaces as
`ErrInternalServer` (extractPgError yields nothing for it), never as
`ErrUserNotFound` or `ErrTransactionFailed`. -/
theorem create_error_vocabulary (dbResult : Option GoError) :
    (PostgresRepository.create dbResult = none ∨
      PostgresRepository.create dbResult = some .errIdInUse ∨
      PostgresRepository.create dbResult = some .errUsernameInUse ∨
      PostgresRepository.create dbResult = some .errEmailInUse ∨
      (∃ v, PostgresRepository.create dbResult = some (.errValueNotNullable v)) ∨
      (∃ v, PostgresRepository.create dbResult = some (.errInternalServer v))) ∧
    PostgresRepository.create (some .gormErrRecordNotFound) =
      some (.errInternalServer "record not found") := by
  constructor
  · cases dbResult with
    | none => exact Or.inl rfl
    | some result =>
      have hcw :
          classifyWriteError result = .errIdInUse ∨
          classifyWriteError result = .errUsernameInUse ∨
          classifyWriteError result = .errEmailInUse ∨
          (∃ v, classifyWriteError result = .errValueNotNullable v) ∨
          (∃ v, classifyWriteError result = .errInternalServer v) := by
        unfold classifyWriteError
        cases extractPgError (some result) with
        | none => exact Or.inr (Or.inr (Or.inr (Or.inr ⟨_, rfl⟩)))
        | some err =>
          dsimp only
          split
          · split
            · exact Or.inl rfl
            · split
              · exact Or.inr (Or.inl rfl)
              · split
                · exact Or.inr (Or.inr (Or.inl rfl))
                · exact Or.inr (Or.inr (Or.inr (Or.inr ⟨_, rfl⟩)))
          · split
            · exact Or.inr (Or.inr (Or.inr (Or.inl ⟨_, rfl⟩)))
            · exact Or.inr (Or.inr (Or.inr (Or.inr ⟨_, rfl⟩)))
      have hc : PostgresRepository.create (some result) =
          some (classifyWriteError result) := rfl
      rcases hcw with h | h | h | ⟨v, h⟩ | ⟨v, h⟩ <;> rw [hc, h]
      · exact Or.inr (Or.inl rfl)
      · exact Or.inr (Or.inr (Or.inl rfl))
      · exact Or.inr (Or.inr (Or.inr (Or.inl rfl)))
      · exact Or.inr (Or.inr (Or.inr (Or.inr (Or.inl ⟨v, rfl⟩))))
      · exact Or.inr (Or.inr (Or.inr (Or.inr (Or.inr ⟨v, rfl⟩))))
  · rfl

/-- C10: a successful orchestrator Update returns exactly the user
value it was given — the model returns the input argument verbatim and
performs no read from the store on the success path. -/
theorem service_update_returns_input (user : User) (store : TxStore)
    (dbError : Option GoError) (rowsAffected : Nat) (v : User)
    (h : UserServiceImpl.update user store dbError rowsAffected = .ok v) :
    v = user := by
  unfold UserServiceImpl.update at h
  cases htx : txPortExecute store (PostgresRepository.update dbError rowsAffected) with
  | some e => rw [htx] at h; exact absurd h (by simp)
  | none =>
    rw [htx] at h
    simp only [Except.ok.injEq] at h
    exact h.symm

/-- C10 witness: the update theorem applied at a concrete user and a
successful store outcome. -/
theorem service_update_returns_input_witness :
    ({ ID := "01A", Name := "Jane Doe", Username := "janedoe123",
       Email := "jane.doe@example.com" } : User) =
      { ID := "01A", Name := "Jane Doe", Username := "janedoe123",
        Email := "jane.doe@example.com" } :=
  service_update_returns_input
    { ID := "01A", Name := "Jane Doe", Username := "janedoe123",
      Email := "jane.doe@example.com" }
    (.ran none) none 1 _ rfl

/-- Finding in a list extended on the right by one element, when no
element of the original list satisfies the predicate. -/
theorem find_append_singleton {p : UserEntity → Bool} {l : List UserEntity}
    (h : l.any p = false) (e : UserEntity) :
    (l ++ [e]).find? p = if p e then some e else none := by
  induction l with
  | nil => cases hp : p e <;> simp [List.find?, hp]
  | cons a t ih =>
    simp only [List.any_cons, Bool.or_eq_false_iff] at h
    simp only [List.cons_append, List.find?_cons, h.1, ih h.2]

/-- C7: creating a user through the orchestrator over the modelled
relational store and immediately finding it by the returned identifier
(with no intervening mutation) succeeds and yields a record deep-equal
to the created one. -/
theorem create_then_findById (table : List UserEntity) (req : UserCreateRequest)
    (genId : String) (t2 : List UserEntity) (u : User)
    (h : svcCreateS table req genId = (t2, .ok u)) :
    svcFindByIdS t2 u.ID = .ok u := by
  unfold svcCreateS repoCreateS at h
  dsimp only [ToEntity] at h
  cases hdb : dbCreateError table ⟨genId, req.Name, req.Username, req.Email⟩ with
  | some e =>
    rw [hdb] at h
    simp [PostgresRepository.create] at h
  | none =>
    rw [hdb] at h
    simp only [PostgresRepository.create, Prod.mk.injEq, Except.ok.injEq] at h
    obtain ⟨ht, hu⟩ := h
    subst ht
    subst hu
    have hid : (table.any fun x => x.ID == genId) = false := by
      by_contra hc
      rw [Bool.not_eq_false] at hc
      unfold dbCreateError at hdb
      dsimp only at hdb
      rw [hc] at hdb
      simp at hdb
    unfold svcFindByIdS repoFindByIdS dbFirst
    dsimp only
    rw [find_append_singleton hid]
    simp [FromEntity]

/-- C7 witness: the round trip at a concrete request on the empty
store. -/
theorem create_then_findById_witness :
    svcFindByIdS
      [ToEntity ⟨"01ARZ3NDEKTSV4RRFFQ69G5FAV", "Jane Doe", "janedoe123", "jane.doe@example.com"⟩]
      "01ARZ3NDEKTSV4RRFFQ69G5FAV" =
      .ok ⟨"01ARZ3NDEKTSV4RRFFQ69G5FAV", "Jane Doe", "janedoe123", "jane.doe@example.com"⟩ :=
  create_then_findById []
    ⟨"Jane Doe", "janedoe123", "jane.doe@example.com"⟩
    "01ARZ3NDEKTSV4RRFFQ69G5FAV" _ _ rfl
